import Mathlib

/-
Shallow embedding of the GD32H7xx demo-suite application code:
  * usbh_usr.c           — USB MSC host demo (state machine, disk traversal)
  * gd32h7xx_it.c        — fault stubs and Ethernet receive IRQ handlers
  * netconf.c            — lwIP timer dispatch and DHCP polling state machine

External library calls (FatFs, lwIP, USB host stack, board support) are
modelled by environment records supplying their results; key-wait polling
loops are modelled as atomic environment interactions.
-/

namespace GD32Demo

/-- FatFs result code.  The demo code only distinguishes `FR_OK` from
everything else; a few non-OK constructors stand for the other values. -/
inductive FRESULT where
  | fr_ok
  | fr_disk_err
  | fr_int_err
  | fr_not_ready
  | fr_no_file
  | fr_no_path
  deriving DecidableEq, Repr

/-- FatFs `AM_DIR` attribute value (0x10). -/
def AM_DIR : Nat := 0x10

/-- FatFs `FILINFO`: the fields read by `explore_disk`.  `fname = []`
models the end-of-listing marker (`fno.fname[0] == 0`). -/
structure FILINFO where
  fname : List Char
  fattrib : Nat
  deriving DecidableEq, Repr

/-- Abstract FAT volume as seen through `f_opendir` / `f_readdir`:
for each path, the `f_opendir` result and the successive `f_readdir`
results (exhaustion of the list models the end-of-listing return). -/
structure FileSys where
  opendir : String → FRESULT
  listing : String → List (FRESULT × FILINFO)

/-- `usbh_usr_application_state` values. -/
inductive UsbhUsrState where
  | USBH_USR_FS_INIT
  | USBH_USR_FS_READLIST
  | USBH_USR_FS_WRITEFILE
  | USBH_USR_FS_DEMOEND
  deriving DecidableEq, Repr

/-- Recursion events recorded by the embedding of `explore_disk`:
`enter lvl` marks an invocation at recursion level `lvl`, and
`recurse fromLvl toLvl attrib` marks a recursive call made from level
`fromLvl` with argument `toLvl` for an entry with attribute `attrib`. -/
inductive Ev where
  | enter (level : Nat)
  | recurse (fromLevel toLevel attrib : Nat)
  deriving DecidableEq, Repr

/-- The globals of usbh_usr.c touched by the demo state machine, plus the
UART log and the recursion-event trace of the embedding. -/
structure UsbhSt where
  usbh_usr_application_state : UsbhUsrState
  line_idx : Nat
  res : FRESULT
  bytesWritten : Nat
  bytesToWrite : Nat
  bytesRead : Nat
  log : List String
  events : List Ev
  deriving DecidableEq, Repr

mutual

/-- The body of the `while(connect_status)` / `f_readdir` loop of
`explore_disk` (usbh_usr.c lines 504-551).  `entries` are the remaining
`f_readdir` results; the key-wait pause is atomic. -/
def explore_loop (fs : FileSys) (connect : Bool) (recu_level : Nat)
    (entries : List (FRESULT × FILINFO)) (st : UsbhSt) : UsbhSt :=
  if connect then
    match entries with
    | [] =>
      /- f_readdir returns FR_OK with fname[0] == 0: res is assigned, break -/
      { st with res := FRESULT.fr_ok }
    | (r, fno) :: rest =>
      let st1 := { st with res := r }
      if r ≠ FRESULT.fr_ok ∨ fno.fname = [] then st1
      else if fno.fname.head? = some '.' then
        explore_loop fs connect recu_level rest st1
      else
        let st2 := { st1 with line_idx := (st1.line_idx + 1) % 256 }
        let st3 :=
          if st2.line_idx > 4 then
            { st2 with line_idx := 0,
                       log := st2.log ++ [">>> Press Tamper Key to continue\r\n"] }
          else st2
        let st4 :=
          if recu_level = 1 then { st3 with log := st3.log ++ ["   |__"] }
          else if recu_level = 2 then { st3 with log := st3.log ++ ["   |   |__"] }
          else st3
        let st5 :=
          if fno.fattrib = AM_DIR then
            { st4 with log := st4.log ++ [String.mk fno.fname ++ "\r\n"] }
          else
            { st4 with log := st4.log ++ [String.mk fno.fname ++ "\r\n"] }
        let st6 :=
          if _h : fno.fattrib = AM_DIR ∧ recu_level = 1 then
            explore_disk fs connect (String.mk fno.fname) 2
              { st5 with events := st5.events ++ [Ev.recurse recu_level 2 fno.fattrib] }
          else st5
        explore_loop fs connect recu_level rest st6
  else st
termination_by (3 - recu_level, entries.length)

/-- `explore_disk` (usbh_usr.c lines 495-555): opens `path`, then runs the
listing loop while the device is connected.  The C return value is the
global `res`, kept in the state. -/
def explore_disk (fs : FileSys) (connect : Bool) (path : String)
    (recu_level : Nat) (st : UsbhSt) : UsbhSt :=
  let st0 := { st with events := st.events ++ [Ev.enter recu_level] }
  let r := fs.opendir path
  let st1 := { st0 with res := r }
  if r = FRESULT.fr_ok then
    explore_loop fs connect recu_level (fs.listing path) st1
  else st1
termination_by (3 - recu_level, (fs.listing path).length + 1)

end

/-- The constant `WriteTextBuff` of usbh_usr.c. -/
def WriteTextBuff : String := "GD32 USB Host Demo application using FAT_FS   "

/-- Environment of one `usbh_usr_msc_application` call: the results of the
external FatFs / USB-host calls it makes, the connect status during key
waits, and the FAT volume seen by `explore_disk`. -/
structure MscEnv where
  /-- result of `f_mount(&fatfs, "0:/", 0)` in the INIT state -/
  mount_res : FRESULT
  /-- whether `usbh_msc_lun_info_get` returns `USBH_OK` -/
  lun_ok : Bool
  /-- `info.capacity.block_nbr * info.capacity.block_size` -/
  capacity : Nat
  /-- `msc_host_core.host.connect_status` during the call -/
  connect : Bool
  /-- the FAT volume, for `explore_disk` -/
  fs : FileSys
  /-- result of `f_open(&file, "0:GD32.TXT", FA_CREATE_ALWAYS | FA_WRITE)` -/
  open_w : FRESULT
  /-- result of `f_write` -/
  write_res : FRESULT
  /-- `bytesWritten` out-parameter of `f_write` (uint16_t) -/
  written : Nat
  /-- result of `f_open(&file, "0:GD32.TXT", FA_READ)` -/
  open_r : FRESULT
  /-- result of `f_read` -/
  read_res : FRESULT
  /-- `bytesRead` out-parameter of `f_read` (uint16_t) -/
  read_cnt : Nat
  /-- contents of `ReadTextBuff` after `f_read` -/
  read_data : String

/-- `strncmp(a, b, n) == 0` on the first `n` characters. -/
def strncmp_eq (a b : String) (n : Nat) : Bool :=
  a.toList.take n = b.toList.take n

/-- `usbh_usr_msc_application` (usbh_usr.c lines 369-486): the demo state
machine.  Returns the C return value together with the updated globals.
Polling loops on the Tamper/Wakeup keys are atomic environment waits;
`usb_mdelay`, `f_sync`, `f_close` and the unmount have no observable
effect in the model. -/
def usbh_usr_msc_application (env : MscEnv) (st : UsbhSt) : Int × UsbhSt :=
  match st.usbh_usr_application_state with
  | UsbhUsrState.USBH_USR_FS_INIT =>
    if env.mount_res ≠ FRESULT.fr_ok then
      (-1, { st with log := st.log ++ ["> Cannot initialize File System.\r\n"] })
    else
      let st1 := { st with log := st.log ++ ["> File System initialized.\r\n"] }
      let st2 :=
        if env.lun_ok then
          { st1 with log := st1.log ++
              ["> Disk capacity: " ++ toString env.capacity ++ " Bytes.\r\n"] }
        else st1
      (0, { st2 with usbh_usr_application_state := UsbhUsrState.USBH_USR_FS_READLIST })
  | UsbhUsrState.USBH_USR_FS_READLIST =>
    let st1 := { st with log := st.log ++
        ["> Exploring disk flash ...\r\n",
         ">>> To see the root content of disk \r\n",
         ">>> Press Tamper Key...\r\n"] }
    /- Tamper-key polling loop: atomic wait -/
    let st2 := explore_disk env.fs env.connect "0:/" 1 st1
    let st3 := { st2 with line_idx := 0 }
    (0, { st3 with usbh_usr_application_state := UsbhUsrState.USBH_USR_FS_WRITEFILE })
  | UsbhUsrState.USBH_USR_FS_WRITEFILE =>
    let st1 := { st with log := st.log ++ [">>> Press Wakeup Key to write file\r\n"] }
    /- Wakeup-key polling loop: atomic wait; then f_mount(&fatfs,"0:/",1),
       whose result the code discards -/
    let st2 := { st1 with log := st1.log ++ ["> Writing File to disk flash ...\r\n"] }
    let st3 :=
      if env.open_w = FRESULT.fr_ok then
        let sta := { st2 with log := st2.log ++ ["> GD32.TXT be opened for write.\n"],
                              bytesToWrite := WriteTextBuff.length }
        let stb := { sta with res := env.write_res,
                              bytesWritten := env.written % 65536 }
        if stb.bytesWritten = 0 ∨ stb.res ≠ FRESULT.fr_ok then
          { stb with log := stb.log ++ ["> GD32.TXT CANNOT be written.\r\n"] }
        else
          if env.open_r = FRESULT.fr_ok then
            let stc := { stb with res := env.read_res,
                                  bytesRead := env.read_cnt % 65536 }
            if stc.bytesRead = 0 ∨ stc.res ≠ FRESULT.fr_ok then
              { stc with log := stc.log ++ ["> GD32.TXT CANNOT be read.\r\n"] }
            else if stc.bytesRead = stc.bytesWritten ∧
                    strncmp_eq env.read_data WriteTextBuff stc.bytesRead then
              { stc with log := stc.log ++ ["> File content compare: SUCCESS.\r\n"] }
            else
              { stc with log := stc.log ++ ["> File content compare: ERROR.\r\n"] }
          else
            { stb with log := stb.log ++ ["> GD32.TXT CANNOT be opened for read.\r\n"] }
      else
        { st2 with log := st2.log ++ ["> GD32.TXT CANNOT be opened.\r\n"] }
    let st4 := { st3 with usbh_usr_application_state := UsbhUsrState.USBH_USR_FS_DEMOEND }
    (0, { st4 with log := st4.log ++ ["> The MSC host demo is end.\r\n"] })
  | UsbhUsrState.USBH_USR_FS_DEMOEND => (0, st)

/-- `usbh_user_deinit` (usbh_usr.c lines 131-134). -/
def usbh_user_deinit (st : UsbhSt) : UsbhSt :=
  { st with usbh_usr_application_state := UsbhUsrState.USBH_USR_FS_INIT }

/-- The hardware-initialization actions of the first `usbh_user_init` call
(non-LCD, non-ULPI build): two key configurations, COM configuration and
the startup log message. -/
def usbh_user_init_actions : List String :=
  ["gd_eval_key_init KEY_TAMPER KEY_MODE_GPIO",
   "gd_eval_key_init KEY_WAKEUP KEY_MODE_GPIO",
   "gd_eval_com_init EVAL_COM",
   "\r\n++++USB host library started++++\r\n"]

/-- `usbh_user_init` (usbh_usr.c lines 91-123): takes the static `startup`
flag, returns its new value and the actions performed by this call. -/
def usbh_user_init (startup : Nat) : Nat × List String :=
  if startup = 0 then (1, usbh_user_init_actions) else (startup, [])

/-! ### gd32h7xx_it.c — fault stubs and Ethernet IRQ handlers -/

/-- One step of a fault handler's `while(1) { }` loop: the condition `1` is
always true and the body is empty, so the step continues in the same state
(`Sum.inl`) and never returns (`Sum.inr`). -/
def faultLoopStep (s : Unit) : Unit ⊕ Unit := Sum.inl s

/-- `NMI_Handler` (gd32h7xx_it.c lines 50-55). -/
def NMI_Handler : Unit → Unit ⊕ Unit := faultLoopStep

/-- `HardFault_Handler` (gd32h7xx_it.c lines 63-68). -/
def HardFault_Handler : Unit → Unit ⊕ Unit := faultLoopStep

/-- `MemManage_Handler` (gd32h7xx_it.c lines 76-81). -/
def MemManage_Handler : Unit → Unit ⊕ Unit := faultLoopStep

/-- `BusFault_Handler` (gd32h7xx_it.c lines 89-94). -/
def BusFault_Handler : Unit → Unit ⊕ Unit := faultLoopStep

/-- `UsageFault_Handler` (gd32h7xx_it.c lines 102-107). -/
def UsageFault_Handler : Unit → Unit ⊕ Unit := faultLoopStep

/-- `DebugMon_Handler` (gd32h7xx_it.c lines 115-120). -/
def DebugMon_Handler : Unit → Unit ⊕ Unit := faultLoopStep

/-- `FPU_IRQHandler` (gd32h7xx_it.c lines 135-139). -/
def FPU_IRQHandler : Unit → Unit ⊕ Unit := faultLoopStep

/-- Run a handler's loop for `n` steps: `Sum.inl` means still looping,
`Sum.inr` means the handler returned. -/
def handlerRun (step : Unit → Unit ⊕ Unit) : Nat → Unit ⊕ Unit
  | 0 => Sum.inl ()
  | n + 1 =>
    match handlerRun step n with
    | Sum.inl s => step s
    | Sum.inr r => Sum.inr r

/-- Ethernet DMA interrupt pending flags read and cleared by the handlers. -/
structure EnetFlags where
  /-- `ENET_DMA_INT_FLAG_RS` (receive status) -/
  rs : Bool
  /-- `ENET_DMA_INT_FLAG_NI` (normal interrupt summary) -/
  ni : Bool
  deriving DecidableEq, Repr

/-- `ENET0_IRQHandler` (gd32h7xx_it.c lines 148-166): takes ENET0's DMA
flags and the count of `xSemaphoreGiveFromISR(g_rx_semaphore, ...)` calls
made so far; returns the flags after the handler and the new give count. -/
def ENET0_IRQHandler (flags : EnetFlags) (gives : Nat) : EnetFlags × Nat :=
  let gives1 := if flags.rs then gives + 1 else gives
  let flags1 := { flags with rs := false }
  let flags2 := { flags1 with ni := false }
  (flags2, gives1)

/-- `ENET1_IRQHandler` (gd32h7xx_it.c lines 175-193): identical to
`ENET0_IRQHandler` but acting on ENET1's DMA flags. -/
def ENET1_IRQHandler (flags : EnetFlags) (gives : Nat) : EnetFlags × Nat :=
  let gives1 := if flags.rs then gives + 1 else gives
  let flags1 := { flags with rs := false }
  let flags2 := { flags1 with ni := false }
  (flags2, gives1)

/-! ### netconf.c — lwIP timer dispatch and DHCP polling -/

/-- lwIP `TCP_TMR_INTERVAL` (250 ms, "dispatch TCP timers every 250 ms"). -/
def TCP_TMR_INTERVAL : Nat := 250

/-- lwIP `ARP_TMR_INTERVAL` (1000 ms, "dispatch ARP timers every 1s"). -/
def ARP_TMR_INTERVAL : Nat := 1000

/-- lwIP `DHCP_FINE_TIMER_MSECS` (500 ms). -/
def DHCP_FINE_TIMER_MSECS : Nat := 500

/-- lwIP `DHCP_COARSE_TIMER_MSECS` (60 s). -/
def DHCP_COARSE_TIMER_MSECS : Nat := 60000

/-- `DHCP_TRIES_MAX_TIMES` (netconf.c line 49). -/
def DHCP_TRIES_MAX_TIMES : Nat := 3

/-- `dhcp_addr_status_enum` (netconf.c lines 51-56). -/
inductive DhcpAddrStatus where
  | DHCP_ADDR_NONE
  | DHCP_ADDR_BEGIN
  | DHCP_ADDR_GOT
  | DHCP_ADDR_FAIL
  deriving DecidableEq, Repr

/-- Unsigned 32-bit subtraction `a - b` as C computes it on `uint32_t`. -/
def u32_sub (a b : Nat) : Nat := (a % 2 ^ 32 + 2 ^ 32 - b % 2 ^ 32) % 2 ^ 32

/-- Modelled from the spec: the static board IPv4 configuration
(`BOARD_IP_ADDR0..3`, `BOARD_NETMASK_ADDR0..3`, `BOARD_GW_ADDR0..3`) lives
in main.h, which is not part of the sources; representative values are
used — no claim depends on the particular numbers. -/
def BOARD_IP_ADDR : Nat × Nat × Nat × Nat := (192, 168, 1, 57)

/-- Modelled from the spec: static board netmask, see `BOARD_IP_ADDR`. -/
def BOARD_NETMASK_ADDR : Nat × Nat × Nat × Nat := (255, 255, 255, 0)

/-- Modelled from the spec: static board gateway, see `BOARD_IP_ADDR`. -/
def BOARD_GW_ADDR : Nat × Nat × Nat × Nat := (192, 168, 1, 1)

/-- `IP4_ADDR`: pack four octets into one 32-bit address value. -/
def IP4_ADDR (a : Nat × Nat × Nat × Nat) : Nat :=
  a.1 % 256 + 256 * (a.2.1 % 256) + 65536 * (a.2.2.1 % 256) + 16777216 * (a.2.2.2 % 256)

/-- The globals of netconf.c (USE_ENET0, USE_DHCP build) together with
call counters for the external lwIP timer functions. -/
structure NetSt where
  tcpcurtime : Nat
  arpcurtime : Nat
  finecurtime : Nat
  coarsecurtime : Nat
  dhcp_addr_status : DhcpAddrStatus
  /-- whether DHCP is running on g_mynetif0 (`dhcp_start` / `dhcp_stop`) -/
  dhcp_running : Bool
  /-- the DHCP client's `tries` counter (`netif_dhcp_data(...)->tries`) -/
  dhcp_tries : Nat
  /-- `g_mynetif0.ip_addr.addr` -/
  netif_ip : Nat
  /-- `g_mynetif0` netmask -/
  netif_netmask : Nat
  /-- `g_mynetif0` gateway -/
  netif_gw : Nat
  /-- global `ip_address.addr` -/
  ip_address : Nat
  /-- number of `tcp_tmr()` calls made -/
  tcpTmrCalls : Nat
  /-- number of `etharp_tmr()` calls made -/
  arpTmrCalls : Nat
  /-- number of `dhcp_fine_tmr()` calls made -/
  fineTmrCalls : Nat
  /-- number of `dhcp_coarse_tmr()` calls made -/
  coarseTmrCalls : Nat
  log : List String
  deriving DecidableEq, Repr

/-- `lwip_dhcp_address_get` (netconf.c lines 204-294, USE_ENET0 build):
the DHCP polling state machine. -/
def lwip_dhcp_address_get (st : NetSt) : NetSt :=
  match st.dhcp_addr_status with
  | DhcpAddrStatus.DHCP_ADDR_NONE =>
    { st with dhcp_running := true,
              dhcp_addr_status := DhcpAddrStatus.DHCP_ADDR_BEGIN }
  | DhcpAddrStatus.DHCP_ADDR_BEGIN =>
    let st1 := { st with ip_address := st.netif_ip }
    if st1.ip_address ≠ 0 then
      { st1 with dhcp_addr_status := DhcpAddrStatus.DHCP_ADDR_GOT,
                 log := st1.log ++ ["DHCP -- eval board ip address"] }
    else
      if st1.dhcp_tries > DHCP_TRIES_MAX_TIMES then
        { st1 with dhcp_addr_status := DhcpAddrStatus.DHCP_ADDR_FAIL,
                   dhcp_running := false,
                   netif_ip := IP4_ADDR BOARD_IP_ADDR,
                   netif_netmask := IP4_ADDR BOARD_NETMASK_ADDR,
                   netif_gw := IP4_ADDR BOARD_GW_ADDR }
      else st1
  | DhcpAddrStatus.DHCP_ADDR_GOT => st
  | DhcpAddrStatus.DHCP_ADDR_FAIL => st

/-- `lwip_timeouts_check` (netconf.c lines 160-195, USE_DHCP build):
dispatches the TCP, ARP and DHCP fine/coarse timers when their intervals
have elapsed, using unsigned 32-bit time arithmetic. -/
def lwip_timeouts_check (curtime : Nat) (st : NetSt) : NetSt :=
  let st1 :=
    if u32_sub curtime st.tcpcurtime ≥ TCP_TMR_INTERVAL then
      { st with tcpcurtime := curtime % 2 ^ 32, tcpTmrCalls := st.tcpTmrCalls + 1 }
    else st
  let st2 :=
    if u32_sub curtime st1.arpcurtime ≥ ARP_TMR_INTERVAL then
      { st1 with arpcurtime := curtime % 2 ^ 32, arpTmrCalls := st1.arpTmrCalls + 1 }
    else st1
  let st3 :=
    if u32_sub curtime st2.finecurtime ≥ DHCP_FINE_TIMER_MSECS then
      let sta := { st2 with finecurtime := curtime % 2 ^ 32,
                            fineTmrCalls := st2.fineTmrCalls + 1 }
      if sta.dhcp_addr_status ≠ DhcpAddrStatus.DHCP_ADDR_GOT ∧
         sta.dhcp_addr_status ≠ DhcpAddrStatus.DHCP_ADDR_FAIL then
        lwip_dhcp_address_get sta
      else sta
    else st2
  if u32_sub curtime st3.coarsecurtime ≥ DHCP_COARSE_TIMER_MSECS then
    { st3 with coarsecurtime := curtime % 2 ^ 32,
               coarseTmrCalls := st3.coarseTmrCalls + 1 }
  else st3

/-! ### Concrete instances used by witnesses -/

/-- Boolean well-formedness of a recursion event of `explore_disk`: every
invocation is at level 1 or 2, and every recursive call goes from level 1
to level 2 for an `AM_DIR` entry. -/
def recursionEvOk : Ev → Bool
  | Ev.enter l => decide (l = 1 ∨ l = 2)
  | Ev.recurse f t a => decide (f = 1 ∧ t = 2 ∧ a = AM_DIR)

/-- A small concrete FAT volume: the root holds one directory and one file,
the subdirectory is empty. -/
def sampleFs : FileSys where
  opendir := fun _ => FRESULT.fr_ok
  listing := fun p =>
    if p = "0:/" then
      [(FRESULT.fr_ok, ⟨['D', 'I', 'R'], AM_DIR⟩),
       (FRESULT.fr_ok, ⟨['a', '.', 't', 'x', 't'], 0x20⟩)]
    else []

/-- Initial globals of usbh_usr.c (reset state). -/
def sampleSt : UsbhSt where
  usbh_usr_application_state := UsbhUsrState.USBH_USR_FS_INIT
  line_idx := 0
  res := FRESULT.fr_ok
  bytesWritten := 0
  bytesToWrite := 0
  bytesRead := 0
  log := []
  events := []

/-- A concrete environment where every external call succeeds. -/
def sampleEnv : MscEnv where
  mount_res := FRESULT.fr_ok
  lun_ok := true
  capacity := 1024
  connect := true
  fs := sampleFs
  open_w := FRESULT.fr_ok
  write_res := FRESULT.fr_ok
  written := 46
  open_r := FRESULT.fr_ok
  read_res := FRESULT.fr_ok
  read_cnt := 46
  read_data := WriteTextBuff

/-- A concrete netconf state: DHCP begun, no address yet, tries exhausted. -/
def sampleNetSt : NetSt where
  tcpcurtime := 0
  arpcurtime := 0
  finecurtime := 0
  coarsecurtime := 0
  dhcp_addr_status := DhcpAddrStatus.DHCP_ADDR_BEGIN
  dhcp_running := true
  dhcp_tries := 5
  netif_ip := 0
  netif_netmask := 0
  netif_gw := 0
  ip_address := 0
  tcpTmrCalls := 0
  arpTmrCalls := 0
  fineTmrCalls := 0
  coarseTmrCalls := 0
  log := []

/-! ## Theorems -/

/-- Any number of iterations of the empty `while(1)` body stays in the loop. -/
theorem handlerRun_faultLoopStep (n : Nat) : handlerRun faultLoopStep n = Sum.inl () := by
  induction n with
  | zero => rfl
  | succ n ih => simp [handlerRun, ih, faultLoopStep]

/-- C8: every fault and exception handler in gd32h7xx_it.c — NMI_Handler,
HardFault_Handler, MemManage_Handler, BusFault_Handler, UsageFault_Handler,
DebugMon_Handler and FPU_IRQHandler — never returns: after any number of
loop steps the handler is still looping (`Sum.inl`), never returned
(`Sum.inr`). -/
theorem fault_handlers_never_return :
    ∀ n : Nat,
      handlerRun NMI_Handler n = Sum.inl () ∧
      handlerRun HardFault_Handler n = Sum.inl () ∧
      handlerRun MemManage_Handler n = Sum.inl () ∧
      handlerRun BusFault_Handler n = Sum.inl () ∧
      handlerRun UsageFault_Handler n = Sum.inl () ∧
      handlerRun DebugMon_Handler n = Sum.inl () ∧
      handlerRun FPU_IRQHandler n = Sum.inl () := by
  intro n
  exact ⟨handlerRun_faultLoopStep n, handlerRun_faultLoopStep n,
         handlerRun_faultLoopStep n, handlerRun_faultLoopStep n,
         handlerRun_faultLoopStep n, handlerRun_faultLoopStep n,
         handlerRun_faultLoopStep n⟩

/-- C4: ENET0_IRQHandler (and identically ENET1_IRQHandler) gives the
semaphore `g_rx_semaphore` exactly once if and only if the DMA receive
flag `ENET_DMA_INT_FLAG_RS` is set on entry, and on every invocation it
clears both the RS and NI pending flags before returning. -/
theorem enet_irq_gives_iff_rs :
    ∀ (f : EnetFlags) (g : Nat),
      ((ENET0_IRQHandler f g).2 = g + 1 ↔ f.rs = true) ∧
      ((ENET0_IRQHandler f g).2 = g ↔ f.rs = false) ∧
      (ENET0_IRQHandler f g).1.rs = false ∧
      (ENET0_IRQHandler f g).1.ni = false ∧
      ((ENET1_IRQHandler f g).2 = g + 1 ↔ f.rs = true) ∧
      ((ENET1_IRQHandler f g).2 = g ↔ f.rs = false) ∧
      (ENET1_IRQHandler f g).1.rs = false ∧
      (ENET1_IRQHandler f g).1.ni = false := by
  intro f g
  obtain ⟨rs, ni⟩ := f
  cases rs <;> simp [ENET0_IRQHandler, ENET1_IRQHandler]

/-- C7: `usbh_user_init` performs its hardware initialization only on its
first invocation: starting from the initial flag value 0 it performs the
actions and sets the flag to 1, any call with a nonzero flag does nothing,
and a second consecutive call after any call is always a no-op. -/
theorem usbh_user_init_idempotent_after_first :
    usbh_user_init 0 = (1, usbh_user_init_actions) ∧
    (∀ s : Nat, s ≠ 0 → usbh_user_init s = (s, [])) ∧
    (∀ s : Nat, usbh_user_init (usbh_user_init s).1 = ((usbh_user_init s).1, [])) := by
  refine ⟨rfl, ?_, ?_⟩
  · intro s hs
    simp [usbh_user_init, hs]
  · intro s
    by_cases hs : s = 0 <;> simp [usbh_user_init, hs]

/-- C7 witness: a second call with the flag already set is a no-op. -/
theorem usbh_user_init_idempotent_after_first_witness :
    (1 : Nat) ≠ 0 ∧ usbh_user_init 1 = (1, []) :=
  ⟨by decide, usbh_user_init_idempotent_after_first.2.1 1 (by decide)⟩

/-- C1: `usbh_usr_application_state` advances along the fixed sequence
INIT → READLIST → WRITEFILE → DEMOEND: a call entered in INIT whose
f_mount succeeds moves to READLIST; a call entered in READLIST moves to
WRITEFILE; a call entered in WRITEFILE moves to DEMOEND regardless of any
file-operation error; a call entered in DEMOEND leaves the state (indeed
all globals) unchanged, so DEMOEND is terminal. -/
theorem msc_application_state_sequence :
    ∀ (env : MscEnv) (st : UsbhSt),
      (st.usbh_usr_application_state = UsbhUsrState.USBH_USR_FS_INIT →
        env.mount_res = FRESULT.fr_ok →
        (usbh_usr_msc_application env st).2.usbh_usr_application_state =
          UsbhUsrState.USBH_USR_FS_READLIST) ∧
      (st.usbh_usr_application_state = UsbhUsrState.USBH_USR_FS_READLIST →
        (usbh_usr_msc_application env st).2.usbh_usr_application_state =
          UsbhUsrState.USBH_USR_FS_WRITEFILE) ∧
      (st.usbh_usr_application_state = UsbhUsrState.USBH_USR_FS_WRITEFILE →
        (usbh_usr_msc_application env st).2.usbh_usr_application_state =
          UsbhUsrState.USBH_USR_FS_DEMOEND) ∧
      (st.usbh_usr_application_state = UsbhUsrState.USBH_USR_FS_DEMOEND →
        (usbh_usr_msc_application env st).2 = st) := by
  intro env st
  refine ⟨?_, ?_, ?_, ?_⟩ <;> intro h
  · intro hm
    simp [usbh_usr_msc_application, h, hm]
  · simp [usbh_usr_msc_application, h]
  · simp [usbh_usr_msc_application, h]
  · simp [usbh_usr_msc_application, h]

/-- C1 witness: from INIT with a successful mount the state becomes
READLIST. -/
theorem msc_application_state_sequence_witness :
    sampleSt.usbh_usr_application_state = UsbhUsrState.USBH_USR_FS_INIT ∧
    sampleEnv.mount_res = FRESULT.fr_ok ∧
    (usbh_usr_msc_application sampleEnv sampleSt).2.usbh_usr_application_state =
      UsbhUsrState.USBH_USR_FS_READLIST :=
  ⟨rfl, rfl, (msc_application_state_sequence sampleEnv sampleSt).1 rfl rfl⟩

/-- C2: `usbh_usr_msc_application` returns -1 exactly when entered in
INIT with a failing f_mount; in that error case the state stays INIT;
in every other case it returns 0. -/
theorem msc_application_return_spec :
    ∀ (env : MscEnv) (st : UsbhSt),
      ((usbh_usr_msc_application env st).1 = -1 ↔
        (st.usbh_usr_application_state = UsbhUsrState.USBH_USR_FS_INIT ∧
         env.mount_res ≠ FRESULT.fr_ok)) ∧
      (st.usbh_usr_application_state = UsbhUsrState.USBH_USR_FS_INIT →
        env.mount_res ≠ FRESULT.fr_ok →
        (usbh_usr_msc_application env st).2.usbh_usr_application_state =
          UsbhUsrState.USBH_USR_FS_INIT) ∧
      ((st.usbh_usr_application_state ≠ UsbhUsrState.USBH_USR_FS_INIT ∨
        env.mount_res = FRESULT.fr_ok) →
        (usbh_usr_msc_application env st).1 = 0) := by
  intro env st
  cases hstate : st.usbh_usr_application_state <;>
    by_cases hm : env.mount_res = FRESULT.fr_ok <;>
      simp [usbh_usr_msc_application, hstate, hm]

/-- C2 witness: entered in DEMOEND the function returns 0. -/
theorem msc_application_return_spec_witness :
    ({ sampleSt with usbh_usr_application_state :=
        UsbhUsrState.USBH_USR_FS_DEMOEND } : UsbhSt).usbh_usr_application_state ≠
      UsbhUsrState.USBH_USR_FS_INIT ∧
    (usbh_usr_msc_application sampleEnv
      { sampleSt with usbh_usr_application_state :=
          UsbhUsrState.USBH_USR_FS_DEMOEND }).1 = 0 :=
  ⟨by decide,
   (msc_application_return_spec sampleEnv
     { sampleSt with usbh_usr_application_state :=
         UsbhUsrState.USBH_USR_FS_DEMOEND }).2.2 (Or.inl (by decide))⟩

/-- C10: `explore_disk` skips every entry whose name begins with '.' :
while the device is connected, processing such an entry only records the
`f_readdir` result in the global `res` and continues with the next entry —
no output, no `line_idx` change, no recursion. -/
theorem explore_disk_skips_dot_entries :
    ∀ (fs : FileSys) (lvl : Nat) (fno : FILINFO)
      (rest : List (FRESULT × FILINFO)) (st : UsbhSt),
      fno.fname.head? = some '.' →
      explore_loop fs true lvl ((FRESULT.fr_ok, fno) :: rest) st =
        explore_loop fs true lvl rest { st with res := FRESULT.fr_ok } := by
  intro fs lvl fno rest st h
  have hne : fno.fname ≠ [] := by
    intro he
    rw [he] at h
    simp at h
  rw [explore_loop]
  simp [hne, h]

/-- C10 witness: a concrete dot-entry is skipped. -/
theorem explore_disk_skips_dot_entries_witness :
    (FILINFO.mk ['.', 'f'] 0).fname.head? = some '.' ∧
    explore_loop sampleFs true 1 [(FRESULT.fr_ok, FILINFO.mk ['.', 'f'] 0)] sampleSt =
      explore_loop sampleFs true 1 [] { sampleSt with res := FRESULT.fr_ok } :=
  ⟨rfl, explore_disk_skips_dot_entries sampleFs 1 (FILINFO.mk ['.', 'f'] 0) [] sampleSt rfl⟩

/-- At a recursion level other than 1 the listing loop makes no recursive
call, hence records no event. -/
theorem explore_loop_ne_one_events (fs : FileSys) (c : Bool) (lvl : Nat)
    (hl : lvl ≠ 1) (entries : List (FRESULT × FILINFO)) :
    ∀ st : UsbhSt, (explore_loop fs c lvl entries st).events = st.events := by
  induction entries with
  | nil =>
    intro st
    rw [explore_loop]
    cases c <;> simp
  | cons e rest ih =>
    intro st
    obtain ⟨r, fno⟩ := e
    rw [explore_loop]
    cases c with
    | false => simp
    | true =>
      simp only [if_true, ite_true]
      split
      · simp
      · split
        · rw [ih]
        · rw [ih]
          simp [hl, apply_ite UsbhSt.events]

/-- An `explore_disk` call at level 2 records exactly its own entry event:
no recursion happens at level 2. -/
theorem explore_disk_level2_events (fs : FileSys) (c : Bool) (path : String)
    (st : UsbhSt) :
    (explore_disk fs c path 2 st).events = st.events ++ [Ev.enter 2] := by
  rw [explore_disk]
  split
  · rw [explore_loop_ne_one_events fs c 2 (by decide)]
  · rfl

/-- All recursion events recorded by the level-1 listing loop are
well-formed. -/
theorem explore_loop_one_events_ok (fs : FileSys) (c : Bool)
    (entries : List (FRESULT × FILINFO)) :
    ∀ st : UsbhSt, st.events.all recursionEvOk = true →
      (explore_loop fs c 1 entries st).events.all recursionEvOk = true := by
  induction entries with
  | nil =>
    intro st h
    rw [explore_loop]
    cases c <;> simpa using h
  | cons e rest ih =>
    intro st h
    obtain ⟨r, fno⟩ := e
    rw [explore_loop]
    cases c with
    | false => simpa using h
    | true =>
      simp only [if_true, ite_true]
      split
      · simpa using h
      · split
        · exact ih _ (by simpa using h)
        · apply ih
          split
          · next hrec =>
            rw [explore_disk_level2_events]
            simp only [List.all_append, apply_ite UsbhSt.events, ite_self]
            simp [recursionEvOk, hrec.1, h, apply_ite UsbhSt.events]
          · simpa [apply_ite UsbhSt.events] using h

/-- C3: `explore_disk` recursion is bounded by 2 and only descends into
directory entries: a top-level call (level 1) records only well-formed
events — every invocation is at level 1 or 2 and every recursive call goes
from level 1 to level 2 for an entry with `fattrib = AM_DIR` — and a
level-2 call records exactly its own entry and never recurses.  The
embedding itself is total (well-founded recursion), which witnesses
termination for every finite directory model with atomic key waits. -/
theorem explore_disk_recursion_bounded :
    ∀ (fs : FileSys) (c : Bool) (path : String) (st : UsbhSt),
      st.events = [] →
      (explore_disk fs c path 1 st).events.all recursionEvOk = true ∧
      (explore_disk fs c path 2 st).events = [Ev.enter 2] := by
  intro fs c path st h
  constructor
  · rw [explore_disk]
    split
    · apply explore_loop_one_events_ok
      simp [h, recursionEvOk]
    · simp [h, recursionEvOk]
  · rw [explore_disk_level2_events, h]
    rfl

/-- C3 witness: on the concrete sample volume all recorded events are
well-formed and a level-2 call records exactly its entry event. -/
theorem explore_disk_recursion_bounded_witness :
    sampleSt.events = [] ∧
    (explore_disk sampleFs true "0:/" 1 sampleSt).events.all recursionEvOk = true ∧
    (explore_disk sampleFs true "0:/" 2 sampleSt).events = [Ev.enter 2] :=
  ⟨rfl, explore_disk_recursion_bounded sampleFs true "0:/" sampleSt rfl⟩

/-- The listing loop on an exhausted listing: the final `f_readdir`
end-of-listing return only sets the global `res`. -/
theorem explore_loop_nil (fs : FileSys) (c : Bool) (lvl : Nat) (st : UsbhSt) :
    explore_loop fs c lvl [] st =
      if c then { st with res := FRESULT.fr_ok } else st := by
  rw [explore_loop]

/-- At a recursion level other than 1 the listing loop keeps
`line_idx ≤ 4`. -/
theorem explore_loop_ne_one_line_idx (fs : FileSys) (c : Bool) (lvl : Nat)
    (hl : lvl ≠ 1) (entries : List (FRESULT × FILINFO)) :
    ∀ st : UsbhSt, st.line_idx ≤ 4 →
      (explore_loop fs c lvl entries st).line_idx ≤ 4 := by
  induction entries with
  | nil =>
    intro st h
    rw [explore_loop]
    cases c <;> simpa using h
  | cons e rest ih =>
    intro st h
    obtain ⟨r, fno⟩ := e
    rw [explore_loop]
    cases c with
    | false => simpa using h
    | true =>
      simp only [if_true, ite_true]
      split
      · simpa using h
      · split
        · exact ih _ (by simpa using h)
        · apply ih
          simp [hl, apply_ite UsbhSt.line_idx]
          split <;> omega

/-- A level-2 `explore_disk` call keeps `line_idx ≤ 4`. -/
theorem explore_disk_level2_line_idx (fs : FileSys) (c : Bool) (path : String)
    (st : UsbhSt) (h : st.line_idx ≤ 4) :
    (explore_disk fs c path 2 st).line_idx ≤ 4 := by
  rw [explore_disk]
  split
  · exact explore_loop_ne_one_line_idx fs c 2 (by decide) _ _ (by simpa using h)
  · simpa using h

/-- The level-1 listing loop keeps `line_idx ≤ 4`. -/
theorem explore_loop_one_line_idx (fs : FileSys) (c : Bool)
    (entries : List (FRESULT × FILINFO)) :
    ∀ st : UsbhSt, st.line_idx ≤ 4 →
      (explore_loop fs c 1 entries st).line_idx ≤ 4 := by
  induction entries with
  | nil =>
    intro st h
    rw [explore_loop]
    cases c <;> simpa using h
  | cons e rest ih =>
    intro st h
    obtain ⟨r, fno⟩ := e
    rw [explore_loop]
    cases c with
    | false => simpa using h
    | true =>
      simp only [if_true, ite_true]
      split
      · simpa using h
      · split
        · exact ih _ (by simpa using h)
        · apply ih
          split
          · apply explore_disk_level2_line_idx
            simp [apply_ite UsbhSt.line_idx]
            split <;> omega
          · simp [apply_ite UsbhSt.line_idx]
            split <;> omega

/-- C9: the disk traversal keeps `line_idx` in the range 0..4: from any
state with `line_idx ≤ 4`, both `explore_disk` and its listing loop leave
`line_idx ≤ 4`; processing one listed (non-dot) entry yields
`line_idx + 1`, reset to 0 when that exceeds 4; and
`usbh_usr_msc_application` entered in READLIST resets `line_idx` to 0
after the exploration completes. -/
theorem line_idx_bounded :
    ∀ (fs : FileSys) (c : Bool) (path : String) (lvl : Nat)
      (entries : List (FRESULT × FILINFO)) (st : UsbhSt) (env : MscEnv)
      (fno : FILINFO),
      (st.line_idx ≤ 4 → (explore_disk fs c path lvl st).line_idx ≤ 4) ∧
      (st.line_idx ≤ 4 → (explore_loop fs c lvl entries st).line_idx ≤ 4) ∧
      (st.line_idx ≤ 4 → fno.fname ≠ [] → fno.fname.head? ≠ some '.' →
        (explore_loop fs true 2 [(FRESULT.fr_ok, fno)] st).line_idx =
          if st.line_idx + 1 > 4 then 0 else st.line_idx + 1) ∧
      (st.usbh_usr_application_state = UsbhUsrState.USBH_USR_FS_READLIST →
        (usbh_usr_msc_application env st).2.line_idx = 0) := by
  intro fs c path lvl entries st env fno
  have hloop : ∀ (lv : Nat) (es : List (FRESULT × FILINFO)) (s : UsbhSt),
      s.line_idx ≤ 4 → (explore_loop fs c lv es s).line_idx ≤ 4 := by
    intro lv es s hs
    by_cases hlv : lv = 1
    · subst hlv
      exact explore_loop_one_line_idx fs c es s hs
    · exact explore_loop_ne_one_line_idx fs c lv hlv es s hs
  refine ⟨?_, fun h => hloop lvl entries st h, ?_, ?_⟩
  · intro h
    rw [explore_disk]
    split
    · exact hloop lvl _ _ (by simpa using h)
    · simpa using h
  · intro h hne hdot
    have h256 : st.line_idx + 1 < 256 := by omega
    rw [explore_loop]
    simp [hne, hdot, Nat.mod_eq_of_lt h256, explore_loop_nil,
      apply_ite UsbhSt.line_idx]
  · intro h
    simp [usbh_usr_msc_application, h]

/-- C9 witness: from the initial state (line_idx = 0) the traversal keeps
line_idx ≤ 4, and a READLIST call resets it to 0. -/
theorem line_idx_bounded_witness :
    sampleSt.line_idx ≤ 4 ∧
    (explore_disk sampleFs true "0:/" 1 sampleSt).line_idx ≤ 4 ∧
    ({ sampleSt with usbh_usr_application_state :=
        UsbhUsrState.USBH_USR_FS_READLIST } : UsbhSt).usbh_usr_application_state =
      UsbhUsrState.USBH_USR_FS_READLIST ∧
    (usbh_usr_msc_application sampleEnv
      { sampleSt with usbh_usr_application_state :=
          UsbhUsrState.USBH_USR_FS_READLIST }).2.line_idx = 0 :=
  ⟨by decide,
   (line_idx_bounded sampleFs true "0:/" 1 [] sampleSt sampleEnv
     (FILINFO.mk ['a'] 0)).1 (by decide),
   rfl,
   (line_idx_bounded sampleFs true "0:/" 1 [] _ sampleEnv
     (FILINFO.mk ['a'] 0)).2.2.2 rfl⟩

/-- The DHCP polling state machine touches no timer bookkeeping: recorded
times and timer-call counters are unchanged by `lwip_dhcp_address_get`. -/
theorem lwip_dhcp_address_get_timers (st : NetSt) :
    (lwip_dhcp_address_get st).tcpcurtime = st.tcpcurtime ∧
    (lwip_dhcp_address_get st).arpcurtime = st.arpcurtime ∧
    (lwip_dhcp_address_get st).finecurtime = st.finecurtime ∧
    (lwip_dhcp_address_get st).coarsecurtime = st.coarsecurtime ∧
    (lwip_dhcp_address_get st).tcpTmrCalls = st.tcpTmrCalls ∧
    (lwip_dhcp_address_get st).arpTmrCalls = st.arpTmrCalls ∧
    (lwip_dhcp_address_get st).fineTmrCalls = st.fineTmrCalls ∧
    (lwip_dhcp_address_get st).coarseTmrCalls = st.coarseTmrCalls := by
  cases h : st.dhcp_addr_status <;>
    simp [lwip_dhcp_address_get, h, apply_ite NetSt.tcpcurtime,
      apply_ite NetSt.arpcurtime, apply_ite NetSt.finecurtime,
      apply_ite NetSt.coarsecurtime, apply_ite NetSt.tcpTmrCalls,
      apply_ite NetSt.arpTmrCalls, apply_ite NetSt.fineTmrCalls,
      apply_ite NetSt.coarseTmrCalls]

/-- C5: `lwip_timeouts_check` dispatches each periodic timer exactly when
its interval has elapsed in unsigned 32-bit time arithmetic — `tcp_tmr`
at `TCP_TMR_INTERVAL`, `etharp_tmr` at `ARP_TMR_INTERVAL`, the DHCP fine
and coarse timers at 500 ms and 60 s — recording `curtime` when it fires;
a timer whose interval has not elapsed is not called and its recorded
time is unchanged. -/
theorem lwip_timeouts_check_dispatch :
    ∀ (curtime : Nat) (st : NetSt),
      (u32_sub curtime st.tcpcurtime ≥ TCP_TMR_INTERVAL →
        (lwip_timeouts_check curtime st).tcpTmrCalls = st.tcpTmrCalls + 1 ∧
        (lwip_timeouts_check curtime st).tcpcurtime = curtime % 2 ^ 32) ∧
      (u32_sub curtime st.tcpcurtime < TCP_TMR_INTERVAL →
        (lwip_timeouts_check curtime st).tcpTmrCalls = st.tcpTmrCalls ∧
        (lwip_timeouts_check curtime st).tcpcurtime = st.tcpcurtime) ∧
      (u32_sub curtime st.arpcurtime ≥ ARP_TMR_INTERVAL →
        (lwip_timeouts_check curtime st).arpTmrCalls = st.arpTmrCalls + 1 ∧
        (lwip_timeouts_check curtime st).arpcurtime = curtime % 2 ^ 32) ∧
      (u32_sub curtime st.arpcurtime < ARP_TMR_INTERVAL →
        (lwip_timeouts_check curtime st).arpTmrCalls = st.arpTmrCalls ∧
        (lwip_timeouts_check curtime st).arpcurtime = st.arpcurtime) ∧
      (u32_sub curtime st.finecurtime ≥ DHCP_FINE_TIMER_MSECS →
        (lwip_timeouts_check curtime st).fineTmrCalls = st.fineTmrCalls + 1 ∧
        (lwip_timeouts_check curtime st).finecurtime = curtime % 2 ^ 32) ∧
      (u32_sub curtime st.finecurtime < DHCP_FINE_TIMER_MSECS →
        (lwip_timeouts_check curtime st).fineTmrCalls = st.fineTmrCalls ∧
        (lwip_timeouts_check curtime st).finecurtime = st.finecurtime) ∧
      (u32_sub curtime st.coarsecurtime ≥ DHCP_COARSE_TIMER_MSECS →
        (lwip_timeouts_check curtime st).coarseTmrCalls = st.coarseTmrCalls + 1 ∧
        (lwip_timeouts_check curtime st).coarsecurtime = curtime % 2 ^ 32) ∧
      (u32_sub curtime st.coarsecurtime < DHCP_COARSE_TIMER_MSECS →
        (lwip_timeouts_check curtime st).coarseTmrCalls = st.coarseTmrCalls ∧
        (lwip_timeouts_check curtime st).coarsecurtime = st.coarsecurtime) := by
  intro curtime st
  refine ⟨?_, ?_, ?_, ?_, ?_, ?_, ?_, ?_⟩ <;> intro h <;>
    constructor <;>
      simp [lwip_timeouts_check, h, Nat.not_le_of_lt, Nat.not_le,
        (lwip_dhcp_address_get_timers _).1, (lwip_dhcp_address_get_timers _).2.1,
        (lwip_dhcp_address_get_timers _).2.2.1,
        (lwip_dhcp_address_get_timers _).2.2.2.1,
        (lwip_dhcp_address_get_timers _).2.2.2.2.1,
        (lwip_dhcp_address_get_timers _).2.2.2.2.2.1,
        (lwip_dhcp_address_get_timers _).2.2.2.2.2.2.1,
        (lwip_dhcp_address_get_timers _).2.2.2.2.2.2.2,
        apply_ite NetSt.tcpcurtime, apply_ite NetSt.arpcurtime,
        apply_ite NetSt.finecurtime, apply_ite NetSt.coarsecurtime,
        apply_ite NetSt.tcpTmrCalls, apply_ite NetSt.arpTmrCalls,
        apply_ite NetSt.fineTmrCalls, apply_ite NetSt.coarseTmrCalls]

/-- C5 witness: at time 1000 from the zero-time sample state every
interval except the coarse one has elapsed; the TCP timer fires. -/
theorem lwip_timeouts_check_dispatch_witness :
    u32_sub 1000 sampleNetSt.tcpcurtime ≥ TCP_TMR_INTERVAL ∧
    (lwip_timeouts_check 1000 sampleNetSt).tcpTmrCalls = sampleNetSt.tcpTmrCalls + 1 ∧
    (lwip_timeouts_check 1000 sampleNetSt).tcpcurtime = 1000 % 2 ^ 32 :=
  ⟨by decide, (lwip_timeouts_check_dispatch 1000 sampleNetSt).1 (by decide)⟩

/-- Once the DHCP status is GOT or FAIL, one `lwip_timeouts_check` call
leaves it unchanged: the fine-timer branch no longer invokes
`lwip_dhcp_address_get`. -/
theorem lwip_timeouts_check_terminal (t : Nat) (st : NetSt)
    (h : st.dhcp_addr_status = DhcpAddrStatus.DHCP_ADDR_GOT ∨
         st.dhcp_addr_status = DhcpAddrStatus.DHCP_ADDR_FAIL) :
    (lwip_timeouts_check t st).dhcp_addr_status = st.dhcp_addr_status := by
  cases h with
  | inl h => simp [lwip_timeouts_check, h, apply_ite NetSt.dhcp_addr_status]
  | inr h => simp [lwip_timeouts_check, h, apply_ite NetSt.dhcp_addr_status]

/-- C6: the DHCP polling state machine never leaves GOT or FAIL — the
switch has no transition out of them and `lwip_timeouts_check` stops
invoking `lwip_dhcp_address_get`, so any sequence of further
`lwip_timeouts_check` calls keeps the status; and in BEGIN with the
interface address still 0 and more than `DHCP_TRIES_MAX_TIMES` tries,
`lwip_dhcp_address_get` sets FAIL, stops DHCP, and installs the static
board address, netmask and gateway on the interface. -/
theorem dhcp_terminal_and_static_fallback :
    ∀ (st : NetSt) (ts : List Nat),
      ((st.dhcp_addr_status = DhcpAddrStatus.DHCP_ADDR_GOT ∨
        st.dhcp_addr_status = DhcpAddrStatus.DHCP_ADDR_FAIL) →
        lwip_dhcp_address_get st = st ∧
        (ts.foldl (fun s t => lwip_timeouts_check t s) st).dhcp_addr_status =
          st.dhcp_addr_status) ∧
      (st.dhcp_addr_status = DhcpAddrStatus.DHCP_ADDR_BEGIN →
        st.netif_ip = 0 →
        st.dhcp_tries > DHCP_TRIES_MAX_TIMES →
        (lwip_dhcp_address_get st).dhcp_addr_status = DhcpAddrStatus.DHCP_ADDR_FAIL ∧
        (lwip_dhcp_address_get st).dhcp_running = false ∧
        (lwip_dhcp_address_get st).netif_ip = IP4_ADDR BOARD_IP_ADDR ∧
        (lwip_dhcp_address_get st).netif_netmask = IP4_ADDR BOARD_NETMASK_ADDR ∧
        (lwip_dhcp_address_get st).netif_gw = IP4_ADDR BOARD_GW_ADDR) := by
  have hfold : ∀ (ts : List Nat) (st : NetSt),
      (st.dhcp_addr_status = DhcpAddrStatus.DHCP_ADDR_GOT ∨
       st.dhcp_addr_status = DhcpAddrStatus.DHCP_ADDR_FAIL) →
      (ts.foldl (fun s t => lwip_timeouts_check t s) st).dhcp_addr_status =
        st.dhcp_addr_status := by
    intro ts
    induction ts with
    | nil => intro st _; rfl
    | cons t ts ih =>
      intro st h
      have hstep := lwip_timeouts_check_terminal t st h
      calc (List.foldl (fun s t => lwip_timeouts_check t s) st (t :: ts)).dhcp_addr_status
          = (List.foldl (fun s t => lwip_timeouts_check t s)
              (lwip_timeouts_check t st) ts).dhcp_addr_status := rfl
        _ = (lwip_timeouts_check t st).dhcp_addr_status := by
              apply ih
              rw [hstep]
              exact h
        _ = st.dhcp_addr_status := hstep
  intro st ts
  constructor
  · intro h
    refine ⟨?_, hfold ts st h⟩
    cases h with
    | inl h => simp [lwip_dhcp_address_get, h]
    | inr h => simp [lwip_dhcp_address_get, h]
  · intro hb hip htries
    have : ¬ st.netif_ip ≠ 0 := by simp [hip]
    simp [lwip_dhcp_address_get, hb, hip, htries]

/-- C6 witness: from BEGIN with a zero interface address and tries
exhausted, the machine fails over to the static board configuration. -/
theorem dhcp_terminal_and_static_fallback_witness :
    sampleNetSt.dhcp_addr_status = DhcpAddrStatus.DHCP_ADDR_BEGIN ∧
    sampleNetSt.netif_ip = 0 ∧
    sampleNetSt.dhcp_tries > DHCP_TRIES_MAX_TIMES ∧
    ((lwip_dhcp_address_get sampleNetSt).dhcp_addr_status =
        DhcpAddrStatus.DHCP_ADDR_FAIL ∧
      (lwip_dhcp_address_get sampleNetSt).dhcp_running = false ∧
      (lwip_dhcp_address_get sampleNetSt).netif_ip = IP4_ADDR BOARD_IP_ADDR ∧
      (lwip_dhcp_address_get sampleNetSt).netif_netmask =
        IP4_ADDR BOARD_NETMASK_ADDR ∧
      (lwip_dhcp_address_get sampleNetSt).netif_gw = IP4_ADDR BOARD_GW_ADDR) :=
  ⟨rfl, rfl, by decide,
   (dhcp_terminal_and_static_fallback sampleNetSt []).2 rfl rfl (by decide)⟩

end GD32Demo
